import Mathlib

set_option maxRecDepth 100000

/-
Verification development for the screen-to-CRM repository (src/main.py).

The program is a single polling loop: it reads two CSV files (leads and
accounts) at startup, then repeatedly collects extracted screen text into a
batch; once the batch reaches the configured size it builds a prompt from the
batch and the CRM state, sends it to a language model, hands the response to
the activity handler, and clears the batch.

The definitions below are a shallow embedding of that code:
- CSV files are modelled structurally (a header row of column names plus data
  rows); the filesystem is a map from paths to file outcomes.
- `json.dumps(..., indent=4)` is embedded by functions specialised to the two
  shapes the program serialises (the frames object and a list of CSV-row
  dictionaries), reproducing the exact text Python produces, including JSON
  string escaping (`escape`).
- The two loop variants are embedded as per-unit step functions on an
  instrumented state that records every batch handed to inference and every
  response handed to the activity handler, plus a small step machine that
  makes the possibility of the loop returning explicit.
-/

/-- A CSV row as `csv.DictReader` yields it: an association list from column
name to field value, in column order. -/
abbrev Record := List (String × String)

/-- Structural model of the bytes of a CSV file: the header row (list of
column names) followed by the data rows. -/
structure CsvFile where
  header : List String
  rows : List (List String)
deriving DecidableEq

/-- What opening a path can yield: the file exists (with CSV content), the
file is missing (Python raises `FileNotFoundError`), or opening fails with
some other OS error (Python raises a different exception, which `read_csv`
does not catch). -/
inductive FileOutcome where
  | missing
  | file (f : CsvFile)
  | ioError (e : String)
deriving DecidableEq

/-- The filesystem: a map from path to what opening that path yields. -/
abbrev Fs := String → FileOutcome

/-- `csv.DictReader` over a structurally modelled file: each data row becomes
a record pairing the header names with the row values. -/
def dictRows (f : CsvFile) : List Record :=
  f.rows.map (fun r => f.header.zip r)

/-- The file `csv.DictWriter(file, fieldnames=[]).writeheader()` creates: a
header row with zero column names and no data rows. -/
def emptyCsvFile : CsvFile := ⟨[], []⟩

/-- Embeds `read_csv` (src/main.py lines 25-35). Reading an existing file
returns its rows as dictionaries; a missing file is handled by creating an
empty file (no header columns) at that path and returning the empty list; any
other error is not caught and propagates. The updated filesystem is returned
alongside the records. -/
def read_csv (fs : Fs) (path : String) : Except String (List Record × Fs) :=
  match fs path with
  | .file f => .ok (dictRows f, fs)
  | .missing => .ok ([], fun p => if p = path then .file emptyCsvFile else fs p)
  | .ioError e => .error e

/-- Embeds `on_activity` (src/main.py lines 52-59): the alert, meeting and
CRM-update hooks are commented out, so the body is a single `print` of the
activity string. The result is the list of lines printed. -/
def on_activity (activity : String) : List String := [activity]

/-- Lowercase hexadecimal digit, as used by `json.dumps` in x5cuXXXX escapes. -/
def hexDigit (n : Nat) : Char :=
  if n < 10 then Char.ofNat (48 + n) else Char.ofNat (87 + n)

/-- Four lowercase hexadecimal digits of `n`, as in a JSON x5cuXXXX escape. -/
def toHex4 (n : Nat) : String :=
  String.mk [hexDigit (n / 4096 % 16), hexDigit (n / 256 % 16),
    hexDigit (n / 16 % 16), hexDigit (n % 16)]

/-- How `json.dumps` (with its default `ensure_ascii=True`) renders one
character inside a JSON string literal: backslash and double quote are
backslash-escaped; backspace, tab, newline, form feed and carriage return use
their short escapes; other control characters and all non-ASCII characters
become x5cuXXXX escapes (astral characters as a surrogate pair); the
remaining printable ASCII characters stand for themselves. -/
def escapeChar (c : Char) : String :=
  let n := c.toNat
  if c = '\\' then "\\\\"
  else if c = '\x22' then "\\\x22"
  else if n = 8 then "\\b"
  else if n = 9 then "\\t"
  else if n = 10 then "\\n"
  else if n = 12 then "\\f"
  else if n = 13 then "\\r"
  else if n < 32 then "\\u" ++ toHex4 n
  else if n < 127 then String.singleton c
  else if n ≤ 65535 then "\\u" ++ toHex4 n
  else "\\u" ++ toHex4 (55296 + (n - 65536) / 1024)
    ++ "\\u" ++ toHex4 (56320 + (n - 65536) % 1024)

/-- JSON string escaping applied to a whole string (the body of the JSON
string literal, without the surrounding quotes). -/
def escape (s : String) : String :=
  String.join (s.data.map escapeChar)

/-- A JSON string literal: `escape` between double quotes. -/
def quoteJson (s : String) : String := "\x22" ++ escape s ++ "\x22"

/-- One element of the `frames` array in the batched-text JSON, exactly as
`json.dumps(..., indent=4)` prints it at nesting depth 2: an object with the
`frame_number` and `text` fields. -/
def frameObjStr (k : Nat) (t : String) : String :=
  "\x7b\n            \x22frame_number\x22: " ++ toString k
    ++ ",\n            \x22text\x22: " ++ quoteJson t ++ "\n        \x7d"

/-- The comma-separated tail of the `frames` array, numbering frames from
`k`: each further element is preceded by the item separator and the depth-2
indent. -/
def framesTail : Nat → List String → String
  | _, [] => ""
  | k, t :: ts => ",\n        " ++ frameObjStr k t ++ framesTail (k + 1) ts

/-- The `frames` array as `json.dumps(..., indent=4)` prints it at depth 1:
empty arrays print inline as a bracket pair; otherwise the elements are laid
out one per line at the depth-2 indent. Frame numbers start at 1, matching
`enumerate(screen_texts)` with `i + 1`. -/
def framesArr (texts : List String) : String :=
  match texts with
  | [] => "[]"
  | t :: ts => "[\n        " ++ frameObjStr 1 t ++ framesTail 2 ts ++ "\n    ]"

/-- `json.dumps(batched_text, indent=4)` for the dictionary
`{"frames": [...]}` built in `build_prompt` (src/main.py lines 94-99). -/
def batchedText (texts : List String) : String :=
  "\x7b\n    \x22frames\x22: " ++ framesArr texts ++ "\n\x7d"

/-- The comma-separated tail of a serialised record object: the remaining
key-value pairs at the depth-2 indent. -/
def fieldsTail : List (String × String) → String
  | [] => ""
  | (k, v) :: rest => ",\n        " ++ quoteJson k ++ ": " ++ quoteJson v ++ fieldsTail rest

/-- One CSV-row dictionary as `json.dumps(..., indent=4)` prints it at
depth 1: empty objects print inline as a brace pair; otherwise one key-value
pair per line at the depth-2 indent. -/
def recordObj (r : Record) : String :=
  match r with
  | [] => "\x7b\x7d"
  | (k, v) :: rest =>
    "\x7b\n        " ++ quoteJson k ++ ": " ++ quoteJson v ++ fieldsTail rest ++ "\n    \x7d"

/-- The comma-separated tail of the serialised record list at depth 1. -/
def recordsTail : List Record → String
  | [] => ""
  | r :: rs => ",\n    " ++ recordObj r ++ recordsTail rs

/-- `json.dumps(records, indent=4)` for a list of CSV-row dictionaries, as
used for the leads and accounts in `build_prompt` (src/main.py lines
103-104). -/
def recordsJson (rs : List Record) : String :=
  match rs with
  | [] => "[]"
  | r :: rest => "[\n    " ++ recordObj r ++ recordsTail rest ++ "\n]"

/-- Embeds `build_prompt` (src/main.py lines 92-107): the concatenation of
the fixed instruction text, the batch size, the batched-text JSON, the
serialised leads and accounts, and the closing instruction, exactly as the
adjacent f-strings concatenate in Python. -/
def build_prompt (screen_texts : List String) (leads accounts : List Record)
    (batch_size : Nat) : String :=
  "You are an AI assistant that get text from a user screen doing sales (through OCR) and you job is to update a CRM system with the data extracted from the screen."
    ++ "This is the extracted text on the user\x27s screen over the past "
    ++ toString batch_size ++ " frames: \n\n" ++ batchedText screen_texts ++ "\n\n"
    ++ "Leads CSV content: " ++ recordsJson leads ++ "\n\n"
    ++ "Accounts CSV content: " ++ recordsJson accounts ++ "\n\n"
    ++ "Return a JSON function call to update the CRM system with the processed text."

/-- The loop state the claims observe: the current batch (`screen_texts`),
plus instrumentation recording, in order, every batch from which a prompt was
built and sent to inference (`calls`) and every model response handed to
`on_activity` (`handled`). -/
structure TState where
  batch : List String
  calls : List (List String)
  handled : List String
deriving DecidableEq

/-- The initial loop state: `screen_texts = []`, nothing sent, nothing
handled. -/
def initTState : TState := ⟨[], [], []⟩

/-- Embeds one iteration of the test-corpus loop body (src/main.py lines
122-133) applied to one frame text: append the text to `screen_texts`; if the
batch has reached `batch_size`, build the prompt, call inference (`infer` is
the model treated as an oracle from prompt to response), hand the response to
`on_activity`, and reset the batch to empty. -/
def testStep (infer : String → String) (leads accounts : List Record)
    (bs : Nat) (st : TState) (text : String) : TState :=
  let batch := st.batch ++ [text]
  if batch.length ≥ bs then
    let prompt := build_prompt batch leads accounts bs
    let processed := infer prompt
    ⟨[], st.calls ++ [batch], st.handled ++ [processed]⟩
  else
    ⟨batch, st.calls, st.handled⟩

/-- Embeds one iteration of the live-capture loop body (src/main.py lines
136-149) applied to the OCR text of the captured frame: append the text; if
the batch has reached `batch_size`, build the prompt, call inference, hand
the response to `on_activity`, and reset the batch. -/
def liveProcess (infer : String → String) (leads accounts : List Record)
    (bs : Nat) (st : TState) (text : String) : TState :=
  let batch := st.batch ++ [text]
  if batch.length ≥ bs then
    let prompt := build_prompt batch leads accounts bs
    let processed := infer prompt
    ⟨[], st.calls ++ [batch], st.handled ++ [processed]⟩
  else
    ⟨batch, st.calls, st.handled⟩

/-- Modelled from the spec: the alternative batching policy the specification
alleges for one of the two code paths, in which the batch-size check happens
BEFORE appending the new unit: if the current batch is already full it is
flushed to inference first, and the new unit then starts the next batch. -/
def checkBeforeAppendStep (infer : String → String) (leads accounts : List Record)
    (bs : Nat) (st : TState) (text : String) : TState :=
  if st.batch.length ≥ bs then
    let prompt := build_prompt st.batch leads accounts bs
    let processed := infer prompt
    ⟨[text], st.calls ++ [st.batch], st.handled ++ [processed]⟩
  else
    ⟨st.batch ++ [text], st.calls, st.handled⟩

/-- The whole test-corpus loop (src/main.py lines 122-133): fold the per-unit
step over the frame texts in corpus order, starting from the empty state. -/
def runTest (infer : String → String) (leads accounts : List Record)
    (bs : Nat) (frames : List String) : TState :=
  frames.foldl (testStep infer leads accounts bs) initTState

/-- One entry of the `frames` array of the JSON test corpus; the loop reads
only its `text` field. -/
structure Frame where
  text : String

/-- The JSON test corpus: a document with a `frames` array. -/
structure Corpus where
  frames : List Frame

/-- Running the test path on a JSON corpus (src/main.py lines 119-133): the
`for` loop reads `entry["text"]` of each element of `test_data["frames"]` in
array order. -/
def runCorpus (infer : String → String) (leads accounts : List Record)
    (bs : Nat) (c : Corpus) : TState :=
  runTest infer leads accounts bs (c.frames.map Frame.text)

/-- The full loop state for `main_loop` (src/main.py lines 110-151): the
leads and accounts loaded at startup, the filesystem, and the batching
state. -/
structure FullState where
  leads : List Record
  accounts : List Record
  fs : Fs
  batch : List String
  calls : List (List String)
  handled : List String

/-- One iteration of the loop body on the full state: the body only ever
assigns `screen_texts`, `prompt`, `response` and `processed_text`; it
contains no assignment to `leads` or `accounts` and no file operation, so
those components are carried over unchanged. -/
def fullStep (infer : String → String) (bs : Nat) (st : FullState)
    (text : String) : FullState :=
  let batch := st.batch ++ [text]
  if batch.length ≥ bs then
    let prompt := build_prompt batch st.leads st.accounts bs
    let processed := infer prompt
    { st with
      batch := []
      calls := st.calls ++ [batch]
      handled := st.handled ++ [processed] }
  else
    { st with batch := batch }

/-- The startup reads of `main_loop` (src/main.py lines 112-113): load
`leads.csv`, then `accounts.csv`, threading the filesystem; an uncaught
error from either read propagates. -/
def startup (fs0 : Fs) : Except String (List Record × List Record × Fs) :=
  match read_csv fs0 "leads.csv" with
  | .error e => .error e
  | .ok (leads, fs1) =>
    match read_csv fs1 "accounts.csv" with
    | .error e => .error e
    | .ok (accounts, fs2) => .ok (leads, accounts, fs2)

/-- `main_loop` on the test-corpus path, starting from a filesystem: run the
startup reads, then fold the loop body over the corpus texts. -/
def mainRunTest (infer : String → String) (bs : Nat) (frames : List String)
    (fs0 : Fs) : Except String FullState :=
  match startup fs0 with
  | .error e => .error e
  | .ok (leads, accounts, fs2) =>
    .ok (frames.foldl (fullStep infer bs) ⟨leads, accounts, fs2, [], [], []⟩)

/-- Control state of `main_loop` after startup: `remaining = some ts` means
the test-corpus branch was taken and `ts` are the frames the `for` loop has
not consumed yet; `remaining = none` means the live-capture branch (the
`while True` loop) was taken. `tick` counts live captures and indexes the
capture-plus-OCR oracle. -/
structure LoopMachine where
  remaining : Option (List String)
  tick : Nat
  ts : TState

/-- One small step of `main_loop` (src/main.py lines 119-151). Returning
`none` means `main_loop` returns normally: that happens exactly when the
test-corpus `for` loop has exhausted its frames. In test mode one frame is
consumed per step; in live mode one screen capture is OCRed (`ocr` is the
capture-plus-extraction oracle, indexed by tick) and processed, and the
`while True` loop continues. -/
def mainStep (infer : String → String) (ocr : Nat → String)
    (leads accounts : List Record) (bs : Nat) (m : LoopMachine) :
    Option LoopMachine :=
  match m.remaining with
  | some [] => none
  | some (t :: rest) =>
    some ⟨some rest, m.tick, testStep infer leads accounts bs m.ts t⟩
  | none =>
    some ⟨none, m.tick + 1, liveProcess infer leads accounts bs m.ts (ocr m.tick)⟩

/-- Run up to `n` small steps of `main_loop`; `none` means the loop returned
normally within those steps, `some m` that it is still running in state
`m`. -/
def runSteps (infer : String → String) (ocr : Nat → String)
    (leads accounts : List Record) (bs : Nat) : Nat → LoopMachine → Option LoopMachine
  | 0, m => some m
  | n + 1, m =>
    match mainStep infer ocr leads accounts bs m with
    | none => none
    | some m2 => runSteps infer ocr leads accounts bs n m2

/-- `sub` occurs contiguously inside `s`. -/
def promptHas (s sub : String) : Prop := sub.data <:+: s.data

instance (s sub : String) : Decidable (promptHas s sub) :=
  inferInstanceAs (Decidable (sub.data <:+: s.data))

/-- The pieces of `parts` occur in `l`, in order and without overlap. -/
def appearInOrder : List (List Char) → List Char → Prop
  | [], _ => True
  | t :: ts, l => ∃ pre post, l = pre ++ t ++ post ∧ appearInOrder ts post

/-- A step preserves the relation that each handled response is the model
response to the prompt built from the corresponding recorded batch. -/
lemma testStep_handled_calls (infer : String → String) (leads accounts : List Record)
    (bs : Nat) (st : TState) (t : String)
    (h : st.handled = st.calls.map (fun b => infer (build_prompt b leads accounts bs))) :
    (testStep infer leads accounts bs st t).handled
      = (testStep infer leads accounts bs st t).calls.map
          (fun b => infer (build_prompt b leads accounts bs)) := by
  simp only [testStep]
  split
  · simp [h]
  · simp [h]

/-- Folding the loop body preserves the handled-vs-calls relation. -/
lemma foldl_handled_calls (infer : String → String) (leads accounts : List Record)
    (bs : Nat) (frames : List String) :
    ∀ st : TState,
      st.handled = st.calls.map (fun b => infer (build_prompt b leads accounts bs)) →
      (frames.foldl (testStep infer leads accounts bs) st).handled
        = (frames.foldl (testStep infer leads accounts bs) st).calls.map
            (fun b => infer (build_prompt b leads accounts bs)) := by
  induction frames with
  | nil => intro st h; exact h
  | cons t ts ih =>
    intro st h
    exact ih _ (testStep_handled_calls infer leads accounts bs st t h)

/-- Claim C1: on a JSON test corpus of four text frames with batch size 2,
the loop invokes inference exactly twice; the first call carries frames 1 and
2 and the second frames 3 and 4, in corpus order, and the prompts are built
from exactly those two-frame batches. -/
theorem c1_four_frames_two_batches (infer : String → String)
    (leads accounts : List Record) (t1 t2 t3 t4 : String) :
    (runCorpus infer leads accounts 2 ⟨[⟨t1⟩, ⟨t2⟩, ⟨t3⟩, ⟨t4⟩]⟩).calls
        = [[t1, t2], [t3, t4]]
    ∧ (runCorpus infer leads accounts 2 ⟨[⟨t1⟩, ⟨t2⟩, ⟨t3⟩, ⟨t4⟩]⟩).handled
        = [infer (build_prompt [t1, t2] leads accounts 2),
           infer (build_prompt [t3, t4] leads accounts 2)] :=
  ⟨rfl, rfl⟩

/-- Claim C2 counterexample: the per-unit transitions of the two loop
variants are one and the same function, so the variants do not differ in when
the batch-size check occurs relative to appending; both check after
appending. -/
theorem c2_counterexample_variants_identical : testStep = liveProcess := rfl

/-- Claim C2 (amended): the two loop variants have identical per-unit
batching behaviour, both performing the batch-size check after appending the
new unit; neither implements the check-before-appending policy, which is
observably different: at batch size 1 the check-after step already flushes
the first unit while the check-before step flushes nothing. -/
theorem c2_amended_check_after_append_in_both :
    (∀ (infer : String → String) (leads accounts : List Record) (bs : Nat)
        (st : TState) (t : String),
      testStep infer leads accounts bs st t = liveProcess infer leads accounts bs st t)
    ∧ ∀ infer : String → String,
        (testStep infer [] [] 1 initTState "x").calls = [["x"]]
        ∧ (checkBeforeAppendStep infer [] [] 1 initTState "x").calls = [] := by
  constructor
  · intro infer leads accounts bs st t; rfl
  · intro infer
    exact ⟨rfl, rfl⟩

/-- Claim C3: when the path names no existing file, `read_csv` returns the
empty record list and creates at that path an empty CSV file with no header
columns, leaving every other path untouched; a file-not-found outcome is the
only error it converts, and any other opening error propagates unchanged. -/
theorem c3_read_csv_missing_and_errors (fs : Fs) (path : String) :
    (fs path = .missing →
      ∃ fs2 : Fs, read_csv fs path = .ok ([], fs2)
        ∧ fs2 path = .file emptyCsvFile
        ∧ emptyCsvFile.header = [] ∧ emptyCsvFile.rows = []
        ∧ ∀ q, q ≠ path → fs2 q = fs q)
    ∧ ∀ e, fs path = .ioError e → read_csv fs path = .error e := by
  constructor
  · intro h
    refine ⟨fun p => if p = path then .file emptyCsvFile else fs p, ?_, ?_, rfl, rfl, ?_⟩
    · unfold read_csv; rw [h]
    · simp
    · intro q hq; simp [hq]
  · intro e h
    unfold read_csv; rw [h]

/-- Witness for claim C3 at a concrete filesystem: reading `leads.csv` from
an all-missing filesystem creates the empty file there, and a distinct
opening error on another filesystem propagates. -/
theorem c3_witness :
    (∃ fs2 : Fs, read_csv (fun _ => FileOutcome.missing) "leads.csv" = .ok ([], fs2)
      ∧ fs2 "leads.csv" = .file emptyCsvFile
      ∧ emptyCsvFile.header = [] ∧ emptyCsvFile.rows = []
      ∧ ∀ q, q ≠ "leads.csv" → fs2 q = (fun _ => FileOutcome.missing : Fs) q)
    ∧ read_csv (fun _ => FileOutcome.ioError "boom") "x.csv" = .error "boom" :=
  ⟨(c3_read_csv_missing_and_errors (fun _ => FileOutcome.missing) "leads.csv").1 rfl,
   (c3_read_csv_missing_and_errors (fun _ => FileOutcome.ioError "boom") "x.csv").2 "boom" rfl⟩

/-- Claim C5: the string handed to the activity handler is exactly the string
the inference step returned for the corresponding prompt, unmodified, and
`on_activity` itself performs no transformation: it prints its argument
verbatim. -/
theorem c5_activity_passthrough (infer : String → String)
    (leads accounts : List Record) (bs : Nat) (frames : List String) :
    (runTest infer leads accounts bs frames).handled
      = (runTest infer leads accounts bs frames).calls.map
          (fun b => infer (build_prompt b leads accounts bs))
    ∧ ∀ a : String, on_activity a = [a] :=
  ⟨foldl_handled_calls infer leads accounts bs frames initTState rfl, fun _ => rfl⟩

/-- Claim C9: `build_prompt` is deterministic: two runs on equal inputs
produce the same prompt string. -/
theorem c9_build_prompt_deterministic (s1 s2 : List String)
    (l1 l2 a1 a2 : List Record) (b1 b2 : Nat)
    (hs : s1 = s2) (hl : l1 = l2) (ha : a1 = a2) (hb : b1 = b2) :
    build_prompt s1 l1 a1 b1 = build_prompt s2 l2 a2 b2 := by
  subst hs; subst hl; subst ha; subst hb; rfl

/-- Witness for claim C9 at concrete inputs. -/
theorem c9_witness : build_prompt ["x"] [] [] 1 = build_prompt ["x"] [] [] 1 :=
  c9_build_prompt_deterministic ["x"] ["x"] [] [] [] [] 1 1 rfl rfl rfl rfl

/-- When the appended batch reaches the threshold, the step flushes: the
prompt is built from the full batch, inference is called, the response is
handed on, and the batch is reset. -/
lemma testStep_flush {infer : String → String} {leads accounts : List Record}
    {bs : Nat} {st : TState} {t : String}
    (h : (st.batch ++ [t]).length ≥ bs) :
    testStep infer leads accounts bs st t
      = ⟨[], st.calls ++ [st.batch ++ [t]],
          st.handled ++ [infer (build_prompt (st.batch ++ [t]) leads accounts bs)]⟩ := by
  simp only [testStep]
  rw [if_pos h]

/-- Below the threshold, the step only appends the new text. -/
lemma testStep_keep {infer : String → String} {leads accounts : List Record}
    {bs : Nat} {st : TState} {t : String}
    (h : ¬ (st.batch ++ [t]).length ≥ bs) :
    testStep infer leads accounts bs st t = ⟨st.batch ++ [t], st.calls, st.handled⟩ := by
  simp only [testStep]
  rw [if_neg h]

/-- Main batching invariant: after consuming any frame list, the batch holds
exactly the trailing `length % bs` frames (those after the last flush), and
inference has been called exactly `length / bs` times. -/
lemma runTest_batch_div (infer : String → String) (leads accounts : List Record)
    {bs : Nat} (hbs : 0 < bs) (frames : List String) :
    (runTest infer leads accounts bs frames).batch
        = frames.drop (bs * (frames.length / bs))
    ∧ (runTest infer leads accounts bs frames).calls.length = frames.length / bs := by
  induction frames using List.reverseRecOn with
  | nil => constructor <;> simp [runTest, initTState]
  | append_singleton fs t ih =>
    obtain ⟨hb, hc⟩ := ih
    have hstep : runTest infer leads accounts bs (fs ++ [t])
        = testStep infer leads accounts bs (runTest infer leads accounts bs fs) t := by
      simp [runTest, List.foldl_append]
    have hdam := Nat.div_add_mod fs.length bs
    have hmod : (runTest infer leads accounts bs fs).batch.length = fs.length % bs := by
      rw [hb, List.length_drop]; omega
    have hmlt : fs.length % bs < bs := Nat.mod_lt _ hbs
    have hlen2 : (fs ++ [t]).length = fs.length + 1 := by simp
    by_cases hful : bs ≤ ((runTest infer leads accounts bs fs).batch ++ [t]).length
    · rw [List.length_append, hmod] at hful
      simp at hful
      have hdm : (fs.length + 1) / bs = fs.length / bs + 1 ∧ (fs.length + 1) % bs = 0 := by
        refine (Nat.div_mod_unique hbs).mpr ⟨?_, hbs⟩
        have h2 : bs * (fs.length / bs + 1) = bs * (fs.length / bs) + bs := by ring
        omega
      have hcond : ((runTest infer leads accounts bs fs).batch ++ [t]).length ≥ bs := by
        rw [List.length_append, hmod]; simp; omega
      rw [hstep, testStep_flush hcond]
      constructor
      · show ([] : List String) = (fs ++ [t]).drop (bs * ((fs ++ [t]).length / bs))
        rw [hlen2, hdm.1]
        have h3 : bs * (fs.length / bs + 1) = fs.length + 1 := by
          have h2 : bs * (fs.length / bs + 1) = bs * (fs.length / bs) + bs := by ring
          omega
        rw [h3, ← hlen2, List.drop_length]
      · show ((runTest infer leads accounts bs fs).calls
            ++ [(runTest infer leads accounts bs fs).batch ++ [t]]).length
            = (fs ++ [t]).length / bs
        rw [hlen2, hdm.1]
        simp [hc]
    · rw [List.length_append, hmod] at hful
      simp at hful
      have hdm : (fs.length + 1) / bs = fs.length / bs
          ∧ (fs.length + 1) % bs = fs.length % bs + 1 := by
        refine (Nat.div_mod_unique hbs).mpr ⟨by omega, by omega⟩
      have hcond : ¬ ((runTest infer leads accounts bs fs).batch ++ [t]).length ≥ bs := by
        rw [List.length_append, hmod]; simp; omega
      rw [hstep, testStep_keep hcond]
      constructor
      · show (runTest infer leads accounts bs fs).batch ++ [t]
            = (fs ++ [t]).drop (bs * ((fs ++ [t]).length / bs))
        rw [hlen2, hdm.1, hb]
        exact (List.drop_append_of_le_length (by omega)).symm
      · show (runTest infer leads accounts bs fs).calls.length = (fs ++ [t]).length / bs
        rw [hlen2, hdm.1, hc]

/-- Claim C10: with a positive batch size, inference is invoked exactly
`n / bs` times over an `n`-frame corpus; at every point of the run the batch
holds exactly `(frames so far) % bs` texts, hence never more than `bs`; each
step either makes no inference call or makes exactly one call on the full
batch and empties it immediately; and the `n % bs` trailing frames are left
in the batch with no inference call made for them. -/
theorem c10_batching_invariants (infer : String → String)
    (leads accounts : List Record) (bs : Nat) (frames : List String)
    (hbs : 0 < bs) :
    (runTest infer leads accounts bs frames).calls.length = frames.length / bs
    ∧ (runTest infer leads accounts bs frames).batch
        = frames.drop (bs * (frames.length / bs))
    ∧ (∀ p : List String, p <+: frames →
        (runTest infer leads accounts bs p).batch.length = p.length % bs
        ∧ (runTest infer leads accounts bs p).batch.length < bs)
    ∧ ∀ (st : TState) (t : String),
        (testStep infer leads accounts bs st t).calls = st.calls
        ∨ ((testStep infer leads accounts bs st t).calls
              = st.calls ++ [st.batch ++ [t]]
            ∧ (testStep infer leads accounts bs st t).batch = []) := by
  refine ⟨(runTest_batch_div infer leads accounts hbs frames).2,
    (runTest_batch_div infer leads accounts hbs frames).1, ?_, ?_⟩
  · intro p _
    have h := runTest_batch_div infer leads accounts hbs p
    have hlen : (runTest infer leads accounts bs p).batch.length = p.length % bs := by
      rw [h.1, List.length_drop]
      have := Nat.div_add_mod p.length bs
      omega
    exact ⟨hlen, by rw [hlen]; exact Nat.mod_lt _ hbs⟩
  · intro st t
    by_cases hc : (st.batch ++ [t]).length ≥ bs
    · exact Or.inr ⟨by rw [testStep_flush hc], by rw [testStep_flush hc]⟩
    · exact Or.inl (by rw [testStep_keep hc])

/-- Witness for claim C10 on a concrete three-frame run with batch size 2. -/
theorem c10_witness :
    (runTest (fun _ => "r") [] [] 2 ["a", "b", "c"]).calls.length
        = ["a", "b", "c"].length / 2
    ∧ (runTest (fun _ => "r") [] [] 2 ["a", "b", "c"]).batch
        = ["a", "b", "c"].drop (2 * (["a", "b", "c"].length / 2)) :=
  ⟨(c10_batching_invariants (fun _ => "r") [] [] 2 ["a", "b", "c"] (by decide)).1,
   (c10_batching_invariants (fun _ => "r") [] [] 2 ["a", "b", "c"] (by decide)).2.1⟩

/-- Claim C6: with a positive batch size and a test corpus holding strictly
fewer units than the batch size, inference is never invoked: no batch is ever
sent and nothing reaches the activity handler. -/
theorem c6_small_corpus_no_inference (infer : String → String)
    (leads accounts : List Record) (bs : Nat) (frames : List String)
    (hbs : 0 < bs) (hlt : frames.length < bs) :
    (runTest infer leads accounts bs frames).calls = []
    ∧ (runTest infer leads accounts bs frames).handled = [] := by
  have h := (runTest_batch_div infer leads accounts hbs frames).2
  rw [Nat.div_eq_of_lt hlt] at h
  have hc : (runTest infer leads accounts bs frames).calls = [] :=
    List.length_eq_zero.mp h
  have h5 : (runTest infer leads accounts bs frames).handled
      = (runTest infer leads accounts bs frames).calls.map
          (fun b => infer (build_prompt b leads accounts bs)) :=
    foldl_handled_calls infer leads accounts bs frames initTState rfl
  rw [hc] at h5
  exact ⟨hc, by simpa using h5⟩

/-- Witness for claim C6: two frames with batch size 3 yield no inference
call. -/
theorem c6_witness :
    (runTest (fun _ => "r") [] [] 3 ["a", "b"]).calls = []
    ∧ (runTest (fun _ => "r") [] [] 3 ["a", "b"]).handled = [] :=
  c6_small_corpus_no_inference (fun _ => "r") [] [] 3 ["a", "b"] (by decide) (by decide)

/-- One loop iteration changes only the batching fields: the leads, accounts
and filesystem components are untouched. -/
lemma fullStep_frame (infer : String → String) (bs : Nat) (st : FullState)
    (t : String) :
    (fullStep infer bs st t).leads = st.leads
    ∧ (fullStep infer bs st t).accounts = st.accounts
    ∧ (fullStep infer bs st t).fs = st.fs := by
  by_cases hc : (st.batch ++ [t]).length ≥ bs
  · simp only [fullStep]
    rw [if_pos hc]
    exact ⟨rfl, rfl, rfl⟩
  · simp only [fullStep]
    rw [if_neg hc]
    exact ⟨rfl, rfl, rfl⟩

/-- Folding the loop body leaves leads, accounts and filesystem unchanged. -/
lemma foldl_full_frame (infer : String → String) (bs : Nat)
    (frames : List String) :
    ∀ st : FullState,
      (frames.foldl (fullStep infer bs) st).leads = st.leads
      ∧ (frames.foldl (fullStep infer bs) st).accounts = st.accounts
      ∧ (frames.foldl (fullStep infer bs) st).fs = st.fs := by
  induction frames with
  | nil => intro st; exact ⟨rfl, rfl, rfl⟩
  | cons t ts ih =>
    intro st
    have h1 := fullStep_frame infer bs st t
    have h2 := ih (fullStep infer bs st t)
    exact ⟨h2.1.trans h1.1, h2.2.1.trans h1.2.1, h2.2.2.trans h1.2.2⟩

/-- Claim C7: the leads and accounts are read from their CSV files once at
startup; after that, the final state of the run (and, stepwise, every single
iteration) carries the startup leads, accounts and filesystem unchanged: the
loop never writes them back or mutates them. -/
theorem c7_crm_state_never_mutated (infer : String → String) (bs : Nat)
    (frames : List String) (fs0 : Fs) (leads accounts : List Record) (fs2 : Fs)
    (h : startup fs0 = .ok (leads, accounts, fs2)) :
    mainRunTest infer bs frames fs0
        = .ok (frames.foldl (fullStep infer bs) ⟨leads, accounts, fs2, [], [], []⟩)
    ∧ (frames.foldl (fullStep infer bs) ⟨leads, accounts, fs2, [], [], []⟩).leads = leads
    ∧ (frames.foldl (fullStep infer bs)
        ⟨leads, accounts, fs2, [], [], []⟩).accounts = accounts
    ∧ (frames.foldl (fullStep infer bs) ⟨leads, accounts, fs2, [], [], []⟩).fs = fs2
    ∧ ∀ (st : FullState) (t : String),
        (fullStep infer bs st t).leads = st.leads
        ∧ (fullStep infer bs st t).accounts = st.accounts
        ∧ (fullStep infer bs st t).fs = st.fs := by
  refine ⟨?_, (foldl_full_frame infer bs frames _).1,
    (foldl_full_frame infer bs frames _).2.1,
    (foldl_full_frame infer bs frames _).2.2,
    fun st t => fullStep_frame infer bs st t⟩
  unfold mainRunTest
  rw [h]

/-- Witness for claim C7 on a concrete run whose startup created both CSV
files. -/
theorem c7_witness :
    (["a"].foldl (fullStep (fun _ => "r") 1)
        ⟨[], [],
          (fun p => if p = "accounts.csv" then FileOutcome.file emptyCsvFile
            else if p = "leads.csv" then FileOutcome.file emptyCsvFile
            else FileOutcome.missing),
          [], [], []⟩).leads = [] :=
  (c7_crm_state_never_mutated (fun _ => "r") 1 ["a"] (fun _ => FileOutcome.missing)
      [] [] _ rfl).2.1

/-- Claim C8 counterexample: with a test corpus supplied (the default
configuration: `test_data_file` defaults to `test_data.json`), `main_loop`
returns normally once the corpus is exhausted: after three steps on a
two-frame corpus the loop has terminated on its own. -/
theorem c8_counterexample_test_mode_returns :
    runSteps (fun _ => "r") (fun _ => "o") [] [] 1 3
        ⟨some ["a", "b"], 0, initTState⟩ = none := rfl

/-- Claim C8 (amended): only the live-capture path never terminates: from any
live-mode state, any number of steps leaves the loop still running in live
mode, with no cancellation or timeout path returning normally; the
test-corpus path, by contrast, returns normally after consuming its corpus. -/
theorem c8_amended_live_never_returns (infer : String → String)
    (ocr : Nat → String) (leads accounts : List Record) (bs : Nat) (n : Nat)
    (m : LoopMachine) (h : m.remaining = none) :
    ∃ m2 : LoopMachine,
      runSteps infer ocr leads accounts bs n m = some m2 ∧ m2.remaining = none := by
  induction n generalizing m with
  | zero => exact ⟨m, rfl, h⟩
  | succ k ih =>
    have hs : mainStep infer ocr leads accounts bs m
        = some ⟨none, m.tick + 1,
            liveProcess infer leads accounts bs m.ts (ocr m.tick)⟩ := by
      unfold mainStep
      rw [h]
    simp only [runSteps, hs]
    exact ih _ rfl

/-- Witness for claim C8 (amended): three live-mode steps from the initial
state leave the loop running. -/
theorem c8_witness :
    ∃ m2 : LoopMachine,
      runSteps (fun _ => "r") (fun _ => "o") [] [] 2 3 ⟨none, 0, initTState⟩
          = some m2
      ∧ m2.remaining = none :=
  c8_amended_live_never_returns (fun _ => "r") (fun _ => "o") [] [] 2 3
    ⟨none, 0, initTState⟩ rfl

/-- In-order occurrence is stable under prepending text. -/
lemma appearInOrder_mono_pre (l : List (List Char)) (s p : List Char)
    (h : appearInOrder l s) : appearInOrder l (p ++ s) := by
  cases l with
  | nil => trivial
  | cons t ts =>
    obtain ⟨pre, post, he, hrest⟩ := h
    exact ⟨p ++ pre, post, by rw [he]; simp [List.append_assoc], hrest⟩

/-- In-order occurrence is stable under appending text. -/
lemma appearInOrder_mono_post (l : List (List Char)) :
    ∀ s q : List Char, appearInOrder l s → appearInOrder l (s ++ q) := by
  induction l with
  | nil => intro s q _; trivial
  | cons t ts ih =>
    intro s q h
    obtain ⟨pre, post, he, hrest⟩ := h
    exact ⟨pre, post ++ q, by rw [he]; simp [List.append_assoc], ih post q hrest⟩

/-- The escaped texts occur in order inside the comma-separated tail of the
`frames` array. -/
lemma framesTail_appear (ts : List String) : ∀ k : Nat,
    appearInOrder (ts.map (fun t => (escape t).data)) (framesTail k ts).data := by
  induction ts with
  | nil => intro _; trivial
  | cons t rest ih =>
    intro k
    refine ⟨(",\n        " ++ "\x7b\n            \x22frame_number\x22: " ++ toString k
        ++ ",\n            \x22text\x22: " ++ "\x22").data,
      ("\x22" ++ "\n        \x7d").data ++ (framesTail (k + 1) rest).data, ?_, ?_⟩
    · simp [framesTail, frameObjStr, quoteJson, String.data_append, List.append_assoc]
    · exact appearInOrder_mono_pre _ _ _ (ih (k + 1))

/-- The escaped texts occur in order inside the serialised `frames` array. -/
lemma framesArr_appear (texts : List String) :
    appearInOrder (texts.map (fun t => (escape t).data)) (framesArr texts).data := by
  cases texts with
  | nil => trivial
  | cons t rest =>
    refine ⟨("[\n        " ++ "\x7b\n            \x22frame_number\x22: " ++ toString 1
        ++ ",\n            \x22text\x22: " ++ "\x22").data,
      (("\x22" ++ "\n        \x7d").data ++ (framesTail 2 rest).data) ++ "\n    ]".data,
      ?_, ?_⟩
    · simp [framesArr, frameObjStr, quoteJson, String.data_append, List.append_assoc]
    · exact appearInOrder_mono_post _ _ _
        (appearInOrder_mono_pre _ _ _ (framesTail_appear rest 2))

/-- The escaped texts occur in order inside the whole batched-text JSON. -/
lemma batchedText_appear (texts : List String) :
    appearInOrder (texts.map (fun t => (escape t).data)) (batchedText texts).data := by
  have h3 := appearInOrder_mono_post _ _ "\n\x7d".data
    (appearInOrder_mono_pre _ _ "\x7b\n    \x22frames\x22: ".data (framesArr_appear texts))
  have he : (batchedText texts).data
      = ("\x7b\n    \x22frames\x22: ".data ++ (framesArr texts).data) ++ "\n\x7d".data := by
    simp [batchedText, String.data_append, List.append_assoc]
  rw [he]
  exact h3

/-- The escaped frame texts occur in order inside the full prompt. -/
lemma build_prompt_appear (texts : List String) (leads accounts : List Record)
    (bs : Nat) :
    appearInOrder (texts.map (fun t => (escape t).data))
      (build_prompt texts leads accounts bs).data := by
  have h3 := appearInOrder_mono_post _ _
    (("\n\n" ++ "Leads CSV content: " ++ recordsJson leads ++ "\n\n"
      ++ "Accounts CSV content: " ++ recordsJson accounts ++ "\n\n"
      ++ "Return a JSON function call to update the CRM system with the processed text.").data)
    (appearInOrder_mono_pre _ _
      (("You are an AI assistant that get text from a user screen doing sales (through OCR) and you job is to update a CRM system with the data extracted from the screen."
        ++ "This is the extracted text on the user\x27s screen over the past "
        ++ toString bs ++ " frames: \n\n").data)
      (batchedText_appear texts))
  have he : (build_prompt texts leads accounts bs).data
      = (("You are an AI assistant that get text from a user screen doing sales (through OCR) and you job is to update a CRM system with the data extracted from the screen."
          ++ "This is the extracted text on the user\x27s screen over the past "
          ++ toString bs ++ " frames: \n\n").data
        ++ (batchedText texts).data)
        ++ ("\n\n" ++ "Leads CSV content: " ++ recordsJson leads ++ "\n\n"
          ++ "Accounts CSV content: " ++ recordsJson accounts ++ "\n\n"
          ++ "Return a JSON function call to update the CRM system with the processed text.").data := by
    simp [build_prompt, String.data_append, List.append_assoc]
  rw [he]
  exact h3

/-- Claim C4 counterexample: a frame text containing a double quote is JSON
escaped in the prompt, so the raw text is not a verbatim substring of the
prompt built from it: the decidable substring test evaluates to `false`. -/
theorem c4_counterexample_escaped_text_not_verbatim :
    decide (promptHas (build_prompt ["a\x22b"] [] [] 1) "a\x22b") = false := by rfl

/-- Claim C4 (amended): the prompt contains, verbatim, the serialised leads
content and the serialised accounts content; the frame texts appear in frame
order in their JSON-escaped form (which coincides with the raw text exactly
when the text needs no JSON escaping). -/
theorem c4_amended_prompt_contents (texts : List String)
    (leads accounts : List Record) (bs : Nat) :
    promptHas (build_prompt texts leads accounts bs) (recordsJson leads)
    ∧ promptHas (build_prompt texts leads accounts bs) (recordsJson accounts)
    ∧ appearInOrder (texts.map (fun t => (escape t).data))
        (build_prompt texts leads accounts bs).data := by
  refine ⟨?_, ?_, build_prompt_appear texts leads accounts bs⟩
  · show (recordsJson leads).data <:+: (build_prompt texts leads accounts bs).data
    refine ⟨("You are an AI assistant that get text from a user screen doing sales (through OCR) and you job is to update a CRM system with the data extracted from the screen."
        ++ "This is the extracted text on the user\x27s screen over the past "
        ++ toString bs ++ " frames: \n\n" ++ batchedText texts ++ "\n\n"
        ++ "Leads CSV content: ").data,
      ("\n\n" ++ "Accounts CSV content: " ++ recordsJson accounts ++ "\n\n"
        ++ "Return a JSON function call to update the CRM system with the processed text.").data,
      ?_⟩
    simp [build_prompt, String.data_append, List.append_assoc]
  · show (recordsJson accounts).data <:+: (build_prompt texts leads accounts bs).data
    refine ⟨("You are an AI assistant that get text from a user screen doing sales (through OCR) and you job is to update a CRM system with the data extracted from the screen."
        ++ "This is the extracted text on the user\x27s screen over the past "
        ++ toString bs ++ " frames: \n\n" ++ batchedText texts ++ "\n\n"
        ++ "Leads CSV content: " ++ recordsJson leads ++ "\n\n"
        ++ "Accounts CSV content: ").data,
      ("\n\n"
        ++ "Return a JSON function call to update the CRM system with the processed text.").data,
      ?_⟩
    simp [build_prompt, String.data_append, List.append_assoc]
